import Mathlib

/-
  Verification of the BeeSMART honey dosing firmware core
  (dosing state machine, PID initialization, weight sampler,
  calibration state machine, HTTP command dispatch).

  The definitions below are a shallow embedding of the firmware source
  (the merged honeyDosing v3 sketch).  C integer types are modelled on
  Int/Nat; the int16/uint16/uint8 conversions the source performs are made
  explicit where they occur.  C integer division (truncation toward zero)
  is Int.tdiv.  Hardware and network calls (HX711 reads, servo writes,
  millis timing, file I and O) are inputs or recorded fields of the state.
-/

set_option maxHeartbeats 1000000
set_option maxRecDepth 100000

namespace BeeSMART

/-- Wrap an integer to the value a C cast to int16_t produces. -/
def toInt16 (x : Int) : Int := (x + 32768) % 65536 - 32768

/-- Wrap an integer to the value a C cast to uint16_t produces. -/
def toUInt16 (x : Int) : Int := x % 65536

/-- Wrap an integer to the value a C cast to uint8_t produces. -/
def toUInt8 (x : Int) : Nat := (x % 256).toNat

/-! ## Weight sampler (getStableWeight / initializeWeightSampling)

Source: `WEIGHT_SAMPLES = 5`, `int16_t weightSamples[5]`, `uint8_t
sampleIndex`, `bool samplesInitialized`, `int32_t weightSum`, and the
functions `initializeWeightSampling` and `getStableWeight`.  The raw
sensor read `scale.get_units(1)` is an input to the step function (its
value after the C conversion to int16_t).  The buffer is modelled as a
function on Fin 5. -/

structure WeightSampler where
  weightSamples : Fin 5 → Int
  sampleIndex : Fin 5
  samplesInitialized : Bool
  weightSum : Int
deriving DecidableEq

/-- Embedding of `initializeWeightSampling()`: zeroed buffer, index 0,
not initialized, zero sum. -/
def initializeWeightSampling : WeightSampler :=
  { weightSamples := fun _ => 0
    sampleIndex := 0
    samplesInitialized := false
    weightSum := 0 }

/-- Embedding of `getStableWeight()`.  `newReading` is the raw scale
reading of this call.  Returns the reading reported to the caller and
the updated sampler state.  Mirrors the source line by line: subtract
the evicted slot only once the buffer is initialized, store the new
sample, advance the index mod 5, mark initialized on first wrap, and
return `weightSum / WEIGHT_SAMPLES` (C integer division) once
initialized, the raw reading before that. -/
def getStableWeight (newReading : Int) (s : WeightSampler) : Int × WeightSampler :=
  let sum0 := if s.samplesInitialized then s.weightSum - s.weightSamples s.sampleIndex
              else s.weightSum
  let samples := Function.update s.weightSamples s.sampleIndex newReading
  let sum1 := sum0 + newReading
  let idx : Fin 5 := s.sampleIndex + 1
  let inited := s.samplesInitialized || decide (idx = 0)
  let out := if inited then Int.tdiv sum1 5 else newReading
  (out, { weightSamples := samples
          sampleIndex := idx
          samplesInitialized := inited
          weightSum := sum1 })

/-- Run the sampler over a list of raw readings, one call per reading. -/
def runSampler (l : List Int) : WeightSampler :=
  l.foldl (fun s r => (getStableWeight r s).2) initializeWeightSampling

/-- The value `getStableWeight` returns on the last reading of a
nonempty reading sequence (default 0 on the empty sequence). -/
def stableOut (l : List Int) : Int :=
  (getStableWeight (l.getLastD 0) (runSampler l.dropLast)).1

/-- Closed form of the buffer slot `i` after the readings `l` have been
processed: the most recent reading whose position is congruent to `i`
mod 5, and 0 if no reading has touched the slot yet. -/
def slot (l : List Int) (i : Nat) : Int :=
  if i < l.length then l.getD (l.length - 1 - ((l.length - 1 - i) % 5)) 0 else 0

/-- Sum of the at most 5 most recent readings. -/
def recentSum (l : List Int) : Int := (l.drop (l.length - 5)).sum

/-- Closed form of the whole sampler state after the readings `l`. -/
def stateOf (l : List Int) : WeightSampler :=
  { weightSamples := fun i => slot l i.val
    sampleIndex := ⟨l.length % 5, Nat.mod_lt _ (by norm_num)⟩
    samplesInitialized := decide (5 ≤ l.length)
    weightSum := recentSum l }

lemma slot_append (l : List Int) (r : Int) (i : Nat) (hi : i < 5) :
    slot (l ++ [r]) i = if i = l.length % 5 then r else slot l i := by
  unfold slot
  simp only [List.length_append, List.length_singleton]
  by_cases h1 : i = l.length % 5
  · subst h1
    have hlt : l.length % 5 < l.length + 1 := by omega
    have hidx : l.length + 1 - 1 - ((l.length + 1 - 1 - l.length % 5) % 5) = l.length := by
      omega
    rw [if_pos hlt, hidx, if_pos rfl]
    simp [List.getD_eq_getElem?_getD]
  · rw [if_neg h1]
    by_cases h2 : i < l.length
    · have hne : (l.length - i) % 5 ≠ 0 := by omega
      have hidx : l.length + 1 - 1 - ((l.length + 1 - 1 - i) % 5) =
          l.length - 1 - ((l.length - 1 - i) % 5) := by omega
      have hlt2 : l.length - 1 - ((l.length - 1 - i) % 5) < l.length := by omega
      rw [if_pos (by omega : i < l.length + 1), if_pos h2, hidx,
        List.getD_append _ _ _ _ hlt2]
    · have : ¬ i < l.length + 1 := by omega
      rw [if_neg this, if_neg h2]

lemma slot_evict (l : List Int) :
    slot l (l.length % 5) =
      if 5 ≤ l.length then l.getD (l.length - 5) 0 else 0 := by
  unfold slot
  by_cases h : 5 ≤ l.length
  · have hlt : l.length % 5 < l.length := by omega
    have hidx : l.length - 1 - ((l.length - 1 - l.length % 5) % 5) = l.length - 5 := by
      omega
    rw [if_pos hlt, hidx, if_pos h]
  · have : ¬ l.length % 5 < l.length := by omega
    rw [if_neg this, if_neg h]

lemma recentSum_append (l : List Int) (r : Int) :
    recentSum (l ++ [r]) =
      recentSum l + r - (if 5 ≤ l.length then l.getD (l.length - 5) 0 else 0) := by
  unfold recentSum
  by_cases h : 5 ≤ l.length
  · have h4 : l.length + 1 - 5 = l.length - 4 := by omega
    have h5 : l.length - 5 < l.length := by omega
    have h6 : l.length - 5 + 1 = l.length - 4 := by omega
    rw [List.length_append, List.length_singleton, h4,
      List.drop_append_of_le_length (by omega), List.sum_append,
      List.drop_eq_getElem_cons h5, h6, List.sum_cons, if_pos h,
      List.getD_eq_getElem l 0 h5]
    simp
    ring
  · have h0 : l.length + 1 - 5 = 0 := by omega
    have h1 : l.length - 5 = 0 := by omega
    rw [List.length_append, List.length_singleton, h0, h1, if_neg h]
    simp

lemma runSampler_append (l : List Int) (r : Int) :
    runSampler (l ++ [r]) = (getStableWeight r (runSampler l)).2 := by
  simp [runSampler, List.foldl_append]

lemma runSampler_eq_stateOf (l : List Int) : runSampler l = stateOf l := by
  induction l using List.reverseRecOn with
  | nil =>
    unfold runSampler stateOf slot recentSum initializeWeightSampling
    simp
  | append_singleton l r ih =>
    rw [runSampler_append, ih]
    unfold getStableWeight stateOf
    have hidx : ((⟨l.length % 5, Nat.mod_lt _ (by norm_num)⟩ : Fin 5) + 1) =
        (⟨(l.length + 1) % 5, Nat.mod_lt _ (by norm_num)⟩ : Fin 5) := by
      apply Fin.ext
      rw [Fin.add_def]
      simp only [Fin.val_one]
      omega
    have hinit : (decide (5 ≤ l.length) ||
        decide ((⟨l.length % 5, Nat.mod_lt _ (by norm_num)⟩ : Fin 5) + 1 = 0)) =
        decide (5 ≤ l.length + 1) := by
      rw [hidx, ← Bool.decide_or]
      apply decide_eq_decide.mpr
      rw [Fin.ext_iff]
      simp only [Fin.val_zero]
      omega
    simp only [getStableWeight, List.length_append, List.length_singleton]
    rw [WeightSampler.mk.injEq]
    refine ⟨?_, hidx, hinit, ?_⟩
    · funext i
      rw [Function.update_apply]
      rw [slot_append l r i.val i.isLt]
      by_cases hv : i.val = l.length % 5
      · rw [if_pos hv, if_pos (Fin.ext hv)]
      · rw [if_neg hv, if_neg (fun hc => hv (congrArg Fin.val hc))]
    · have hev := slot_evict l
      rw [recentSum_append]
      by_cases h : 5 ≤ l.length
      · rw [if_pos h] at hev
        rw [if_pos (decide_eq_true h), if_pos h, hev]
        ring
      · rw [if_neg (by simp [h] : ¬ (decide (5 ≤ l.length) = true)), if_neg h]
        ring

lemma getStableWeight_fst (r : Int) (s : WeightSampler) :
    (getStableWeight r s).1 =
      if (getStableWeight r s).2.samplesInitialized then
        Int.tdiv (getStableWeight r s).2.weightSum 5
      else r := rfl

/-- Claim C4: the weight sampler inserts exactly one raw reading per call
into a circular buffer of capacity 5 and maintains the sum incrementally;
once at least 5 samples have been seen, the returned reading is exactly
the sum of the last 5 raw samples divided by 5 (C integer division), with
the maintained sum equal to that exact sum for sequences of any length
(no drift); before the buffer first fills the most recent raw reading is
returned unmodified. -/
theorem stable_weight_moving_average (l : List Int) (r : Int) :
    stableOut (l ++ [r]) =
      (if 5 ≤ (l ++ [r]).length
       then Int.tdiv (((l ++ [r]).drop ((l ++ [r]).length - 5)).sum) 5
       else r)
    ∧ (runSampler (l ++ [r])).weightSum =
        ((l ++ [r]).drop ((l ++ [r]).length - 5)).sum := by
  constructor
  · have h1 : (l ++ [r]).dropLast = l := by simp
    have h2 : (l ++ [r]).getLastD 0 = r := by simp
    unfold stableOut
    rw [h1, h2, getStableWeight_fst, ← runSampler_append, runSampler_eq_stateOf]
    by_cases h : 5 ≤ (l ++ [r]).length <;>
      simp [stateOf, recentSum, h]
  · rw [runSampler_eq_stateOf]
    simp [stateOf, recentSum]

/-- The running-sum invariant together with the strengthening that makes
it inductive: while the buffer has not wrapped yet, every slot from the
write cursor onward still holds its initial 0. -/
def sumInvariant (s : WeightSampler) : Prop :=
  s.weightSum = ∑ i : Fin 5, s.weightSamples i ∧
  (s.samplesInitialized = false → ∀ i : Fin 5, s.sampleIndex ≤ i → s.weightSamples i = 0)

lemma sumInvariant_init : sumInvariant initializeWeightSampling := by
  constructor
  · simp [initializeWeightSampling]
  · intro _ i _
    rfl

lemma sum_update_fin (f : Fin 5 → Int) (j : Fin 5) (r : Int) :
    ∑ i : Fin 5, Function.update f j r i = (∑ i : Fin 5, f i) - f j + r := by
  rw [Finset.sum_update_of_mem (Finset.mem_univ _)]
  rw [Finset.sdiff_singleton_eq_erase, Finset.sum_erase_eq_sub (Finset.mem_univ _)]
  ring

lemma sumInvariant_step (r : Int) (s : WeightSampler) (h : sumInvariant s) :
    sumInvariant (getStableWeight r s).2 := by
  obtain ⟨h1, h2⟩ := h
  constructor
  · simp only [getStableWeight, sum_update_fin]
    cases hsi : s.samplesInitialized with
    | true => rw [if_pos rfl, h1]
    | false =>
      rw [if_neg (by simp), h1, h2 hsi s.sampleIndex (le_refl _)]
      ring
  · intro hni i hle
    simp only [getStableWeight] at hni hle ⊢
    have ha : s.samplesInitialized = false := by
      cases hb : s.samplesInitialized
      · rfl
      · rw [hb] at hni; simp at hni
    have hb : ¬ ((s.sampleIndex + 1 : Fin 5) = 0) := by
      intro hc
      rw [ha, hc] at hni
      simp at hni
    have hv : (s.sampleIndex + 1 : Fin 5).val = s.sampleIndex.val + 1 := by
      rw [Fin.add_def, Fin.val_one]
      rcases Nat.lt_or_ge (s.sampleIndex.val + 1) 5 with hlt | hge
      · exact Nat.mod_eq_of_lt hlt
      · exfalso
        apply hb
        apply Fin.ext
        rw [Fin.add_def, Fin.val_one, Fin.val_zero]
        omega
    have hile : s.sampleIndex.val + 1 ≤ i.val := by
      have := Fin.le_def.mp hle
      omega
    rw [Function.update_apply,
      if_neg (fun hc => by rw [hc] at hile; omega)]
    exact h2 ha i (Fin.le_def.mpr (by omega))

lemma sumInvariant_run (l : List Int) : sumInvariant (runSampler l) := by
  unfold runSampler
  suffices h : ∀ s, sumInvariant s →
      sumInvariant (l.foldl (fun s r => (getStableWeight r s).2) s) by
    exact h _ sumInvariant_init
  induction l with
  | nil => intro s hs; exact hs
  | cons a t ih => intro s hs; exact ih _ (sumInvariant_step a s hs)

/-- Claim C8: the running-sum invariant weightSum = Σ(buffer) holds after
initialization of the weight sampler (the empty reading sequence) and
after every sequence of getStableWeight calls, both before and after the
circular buffer has first been filled. -/
theorem weight_sum_matches_buffer (l : List Int) :
    (runSampler l).weightSum = ∑ i : Fin 5, (runSampler l).weightSamples i :=
  (sumInvariant_run l).1

/-! ## Main controller state

Embedding of the firmware globals driven by `loop()`, `handleApiCommand()`
and the helper functions `stopSystem`, `initPID`,
`recordDispensingStats`.  Doubles and floats carry integral values in
this firmware except for the PID gain coefficients; they are modelled on
Int respectively Rat.  The ArduPID library instance is modelled by the
gain coefficients passed to `begin`, the configured limits, and a
`running` flag (`start`/`stop`); `myController.reset()` clears
library-internal history that has no further observable effect here.
External effects (servo writes, HX711 tare, file writes, millis timing)
are inputs or recorded fields. -/

structure DispensingRecord where
  targetWeight : Int
  actualWeight : Int
  error : Int
deriving DecidableEq

structure Sys where
  actualWeight : Int
  adjustedWeight : Int
  glasWeight : Int
  stateMachine : Nat
  calStateMachine : Nat
  stopConditionCount : Nat
  cnt : Nat
  setpoint : Int
  setpointPI : Option ℚ
  input : Option ℚ
  output : ℚ
  running : Bool
  kP : List ℚ
  Ti : List ℚ
  kD : List ℚ
  gainSelector : Nat
  kpCoeff : ℚ
  kiCoeff : Option ℚ
  kdCoeff : ℚ
  outLow : ℚ
  outHigh : ℚ
  windLow : ℚ
  windHigh : ℚ
  sampleTime : Int
  looptime : Int
  autoState : Bool
  desiredAmount : Int
  stopHysteresis : Int
  minGlassWeight : Int
  maxWeight : Int
  servoMin : Int
  servoMax : Int
  lang : Int
  servoTestMode : Bool
  servoTestOutput : ℚ
  calWeight : Int
  calSum : Int
  calCount : Int
  calAveraging : Bool
  reading : Int
  tareInProgress : Bool
  calFileValue : Option Int
  scaleFactor : ℚ
  dispensingHistory : List DispensingRecord
  historyIndex : Nat
  historyCount : Nat
  totalDispensingCycles : Int
  cumulativeDispensedGrams : Int
  cumulativeTargetGrams : Int
  cumulativeTotalError : Int
  settingsChanged : Bool
  saveCount : Nat
deriving DecidableEq

/-- Embedding of `stopSystem()`: halt PID, clear its history, disable
automatic mode, close the valve, park the dosing machine in state 4 and
reset the stop-condition counter.  (The glass-detection counter `cnt` is
not touched by the source function.) -/
def stopSystem (s : Sys) : Sys :=
  { s with running := false
           autoState := false
           output := 0
           stateMachine := 4
           stopConditionCount := 0 }

/-- Embedding of `initPID(lowlim, highlim)`.  The source computes the
integral coefficient as `0.01/Ti[gainSelector]` unconditionally; the
rational embedding records `none` when that division has divisor 0 (the
C double division 0.01/0.0 yields +inf there).  Ends by calling
`stopSystem()`. -/
def initPID (lowlim highlim : ℚ) (s : Sys) : Sys :=
  let g := s.gainSelector
  let s := { s with
    kpCoeff := s.kP.getD g 0 / 10
    kiCoeff := if s.Ti.getD g 0 = 0 then none else some ((1 / 100) / s.Ti.getD g 0)
    kdCoeff := s.kD.getD g 0
    sampleTime := s.looptime
    outLow := lowlim
    outHigh := highlim
    windLow := 0
    windHigh := 1 / 2 }
  stopSystem s

/-- Embedding of `recordDispensingStats()` (the completion timestamp
`millis()` is wall-clock and not tracked). -/
def recordDispensingStats (s : Sys) : Sys :=
  if 0 < s.setpoint then
    let newRecord : DispensingRecord :=
      { targetWeight := s.setpoint
        actualWeight := s.adjustedWeight
        error := s.adjustedWeight - s.setpoint }
    let s := { s with
      dispensingHistory := s.dispensingHistory.set s.historyIndex newRecord
      historyIndex := (s.historyIndex + 1) % 10
      historyCount := if s.historyCount < 10 then s.historyCount + 1 else s.historyCount
      totalDispensingCycles := s.totalDispensingCycles + 1
      cumulativeDispensedGrams := s.cumulativeDispensedGrams + s.adjustedWeight
      cumulativeTargetGrams := s.cumulativeTargetGrams + s.setpoint
      cumulativeTotalError := s.cumulativeTotalError + (s.adjustedWeight - s.setpoint) }
    if s.totalDispensingCycles % 20 = 0 then { s with settingsChanged := true } else s
  else s

/-- Embedding of the calibration switch in `loop()`.  `tareElapsed`
stands for `millis() - tareStartTime > 1000` and `raw` for the value of
`scale.get_units(1)` on this tick (converted to long on accumulation).
Case 2 resets the live scale factor (`scale.set_scale()`) and tares; case
4 derives the factor with C long division, persists it to /cal.txt and
applies it. -/
def calStep (tareElapsed : Bool) (raw : Int) (s : Sys) : Sys :=
  match s.calStateMachine with
  | 0 => if s.calFileValue.isSome = false then { s with calStateMachine := 1 } else s
  | 1 => s
  | 2 =>
    -- source order: mark the tare as started, then on timeout finalize
    -- (which overwrites the flag), so the two writes compose as below
    if tareElapsed then
      { s with scaleFactor := 1, calStateMachine := 3, tareInProgress := false }
    else if s.tareInProgress = false then
      { s with tareInProgress := true }
    else s
  | 3 => s
  | 4 =>
    if s.calAveraging = false then
      -- first sampling tick: reset the accumulators, then take sample 1;
      -- the completion check of the source compares 100 ≤ 0 + 1 here and
      -- cannot fire (calSamples = 100 > 1)
      { s with calSum := 0 + raw, calCount := 0 + 1, calAveraging := true }
    else if (100:Int) ≤ s.calCount + 1 then
      { s with calSum := s.calSum + raw
               calCount := s.calCount + 1
               reading := Int.tdiv (s.calSum + raw) 100
               calFileValue := some (Int.tdiv (Int.tdiv (s.calSum + raw) 100) s.calWeight)
               scaleFactor := ((Int.tdiv (Int.tdiv (s.calSum + raw) 100) s.calWeight : Int) : ℚ)
               calAveraging := false
               calStateMachine := 0 }
    else
      { s with calSum := s.calSum + raw, calCount := s.calCount + 1 }
  | _ => s

/-- `adjustedWeight = max((int16_t)0, (int16_t)(actualWeight - glasWeight))`. -/
def adjustWeight (actualWeight glasWeight : Int) : Int :=
  max 0 (toInt16 (actualWeight - glasWeight))

/-- Embedding of the dosing switch in `loop()` (states 1 to 4).  Reads
the per-tick globals `actualWeight` and `adjustedWeight` from the state;
the uint8_t counters wrap mod 256 as in C. -/
def dosingStep (s : Sys) : Sys :=
  match s.stateMachine with
  | 1 =>
    let c := if s.actualWeight < s.minGlassWeight then 0 else (s.cnt + 1) % 256
    if 10 < c then
      { s with glasWeight := toUInt16 s.actualWeight, cnt := 0, stateMachine := 2 }
    else
      { s with cnt := c }
  | 2 =>
    { s with setpoint := s.desiredAmount
             setpointPI := if (s.desiredAmount : ℚ) = 0 then none
                           else some ((s.desiredAmount : ℚ) / s.desiredAmount)
             running := true
             stateMachine := 3 }
  | 3 =>
    if s.setpoint - s.adjustedWeight < s.stopHysteresis then
      let c := (s.stopConditionCount + 1) % 256
      if 3 ≤ c then
        let s := recordDispensingStats s
        { s with running := false, output := 0, stateMachine := 4,
                 stopConditionCount := 0 }
      else
        { s with stopConditionCount := c }
    else
      { s with stopConditionCount := 0 }
  | 4 =>
    let s := { s with running := false }
    if s.actualWeight < s.minGlassWeight then
      if s.autoState then { s with stateMachine := 1, cnt := 0 } else s
    else s
  | _ => s

/-- One pass of the timed body of `loop()` after command intake:
refresh the weight globals from the stable reading, run the calibration
switch, run the dosing switch, recompute the PID input
`adjustedWeight/setpoint` (undefined, recorded as `none`, when the
divisor `setpoint` is 0) and let the controller update the output when
running (`pidOut` is the value `myController.compute()` produces this
tick).  Servo-test override and the servo write itself are external. -/
def controlTick (stable : Int) (tareElapsed : Bool) (calRaw : Int) (pidOut : ℚ)
    (s : Sys) : Sys :=
  let s := { s with actualWeight := stable
                    adjustedWeight := adjustWeight stable s.glasWeight }
  let s := calStep tareElapsed calRaw s
  let s := dosingStep s
  let s := { s with input := if (s.setpoint : ℚ) = 0 then none
                             else some ((s.adjustedWeight : ℚ) / s.setpoint) }
  if s.running then { s with output := pidOut } else s

/-- Inputs of one control tick. -/
structure TickInput where
  stable : Int
  tareElapsed : Bool
  calRaw : Int
  pidOut : ℚ

def runTicks (l : List TickInput) (s : Sys) : Sys :=
  l.foldl (fun s i => controlTick i.stable i.tareElapsed i.calRaw i.pidOut s) s

/-- A dosing-only tick input: stable weight reading `w`, no tare event,
calibration raw 0, PID output 0. -/
def dosIn (w : Int) : TickInput := ⟨w, false, 0, 0⟩

/-- `servoMin + output * (servoMax - servoMin)`: the valve position the
tick writes to the servo. -/
def servoPosition (s : Sys) : ℚ :=
  s.servoMin + s.output * (s.servoMax - s.servoMin)

/-- The JSON payload of an API command: `value` for the numeric
commands, `bvalue` for setAuto, the optional kp/ti/kd entries of setPID,
and the `position` string of servoTest. -/
structure ApiPayload where
  value : Int
  bvalue : Bool
  kp : Option ℚ
  ti : Option ℚ
  kd : Option ℚ
  position : String

/-- A neutral payload, for command invocations that ignore it. -/
def noPayload : ApiPayload := ⟨0, false, none, none, none, ""⟩

/-- `markSettingsChanged()`: flag the debounced auto-save. -/
def markSettingsChanged (s : Sys) : Sys := { s with settingsChanged := true }

/-- `saveSettings()`: immediate flush to flash, modelled by a write
counter; the debounce flag is cleared by the flush. -/
def saveSettings (s : Sys) : Sys :=
  { s with saveCount := s.saveCount + 1, settingsChanged := false }

/-- `initializeStats()`. -/
def initializeStats (s : Sys) : Sys :=
  { s with historyCount := 0
           historyIndex := 0
           dispensingHistory := List.replicate 10 ⟨0, 0, 0⟩ }

/-- The start branch of `handleApiCommand()`: only accepted in state 4. -/
def startCmd (s : Sys) : Sys :=
  if s.stateMachine = 4 then { s with stateMachine := 1 } else s

/-- The setAuto branch of `handleApiCommand()`. -/
def setAutoCmd (p : ApiPayload) (s : Sys) : Sys :=
  markSettingsChanged { s with autoState := p.bvalue }

/-- The setAmount branch (String round-trip of the integer value). -/
def setAmountCmd (p : ApiPayload) (s : Sys) : Sys :=
  markSettingsChanged { s with desiredAmount := p.value }

/-- The setServoMin branch. -/
def setServoMinCmd (p : ApiPayload) (s : Sys) : Sys :=
  markSettingsChanged { s with servoMin := p.value }

/-- The setServoMax branch. -/
def setServoMaxCmd (p : ApiPayload) (s : Sys) : Sys :=
  markSettingsChanged { s with servoMax := p.value }

/-- The setStopHysteresis branch. -/
def setStopHysteresisCmd (p : ApiPayload) (s : Sys) : Sys :=
  markSettingsChanged { s with stopHysteresis := p.value }

/-- The setMinGlassWeight branch. -/
def setMinGlassWeightCmd (p : ApiPayload) (s : Sys) : Sys :=
  markSettingsChanged { s with minGlassWeight := p.value }

/-- The setMaxWeight branch. -/
def setMaxWeightCmd (p : ApiPayload) (s : Sys) : Sys :=
  markSettingsChanged { s with maxWeight := p.value }

/-- The setCalWeight branch. -/
def setCalWeightCmd (p : ApiPayload) (s : Sys) : Sys :=
  markSettingsChanged { s with calWeight := p.value }

/-- The setLanguage branch (critical setting, saved immediately). -/
def setLanguageCmd (p : ApiPayload) (s : Sys) : Sys :=
  saveSettings { s with lang := p.value }

/-- The calibrate branch: advance the calibration machine from the three
operator-actionable states only. -/
def calibrateCmd (s : Sys) : Sys :=
  if s.calStateMachine = 0 then { s with calStateMachine := 2 }
  else if s.calStateMachine = 1 then { s with calStateMachine := 2 }
  else if s.calStateMachine = 3 then { s with calStateMachine := 4 }
  else s

/-- The resetStatistics branch. -/
def resetStatisticsCmd (s : Sys) : Sys :=
  saveSettings (initializeStats
    { s with totalDispensingCycles := 0
             cumulativeDispensedGrams := 0
             cumulativeTotalError := 0
             cumulativeTargetGrams := 0 })

/-- The factory-preset reset block of the setViscosity branch: presets
1-3 are reset to their fixed constants when selected; the User-Defined
profile 0 keeps its saved values. -/
def applyPresetReset (s : Sys) : Sys :=
  if s.gainSelector = 1 then
    { s with kP := s.kP.set 1 8, Ti := s.Ti.set 1 10, kD := s.kD.set 1 5 }
  else if s.gainSelector = 2 then
    { s with kP := s.kP.set 2 8, Ti := s.Ti.set 2 7, kD := s.kD.set 2 2 }
  else if s.gainSelector = 3 then
    { s with kP := s.kP.set 3 10, Ti := s.Ti.set 3 0, kD := s.kD.set 3 1 }
  else s

/-- The setViscosity branch of `handleApiCommand()`: select the preset,
reset the factory presets 1-3 to their fixed constants when selected,
then `initPID(0.1, 1)` and `saveSettings()`. -/
def setViscosityCmd (p : ApiPayload) (s : Sys) : Sys :=
  saveSettings (initPID (1 / 10) 1
    (applyPresetReset { s with gainSelector := toUInt8 p.value }))

/-- The servoTest branch of `handleApiCommand()`: enter test mode (the
start-time stamp is wall clock) and set the test output from the
requested position. -/
def servoTestCmd (p : ApiPayload) (s : Sys) : Sys :=
  let s := { s with servoTestMode := true }
  if p.position = "min" then { s with servoTestOutput := 0 }
  else if p.position = "max" then { s with servoTestOutput := 1 }
  else s

/-- The kp update of the setPID branch, applied when present. -/
def applyKp (p : ApiPayload) (s : Sys) : Sys :=
  match p.kp with
  | some v => { s with kP := s.kP.set 0 v }
  | none => s

/-- The ti update of the setPID branch, applied when present. -/
def applyTi (p : ApiPayload) (s : Sys) : Sys :=
  match p.ti with
  | some v => { s with Ti := s.Ti.set 0 v }
  | none => s

/-- The kd update of the setPID branch, applied when present. -/
def applyKd (p : ApiPayload) (s : Sys) : Sys :=
  match p.kd with
  | some v => { s with kD := s.kD.set 0 v }
  | none => s

/-- The setPID branch of `handleApiCommand()`: gains editable only for
the User-Defined profile (gainSelector 0), each of kp/ti/kd updated when
present in the payload, then `initPID(0.1, 1)` and `saveSettings()`. -/
def setPIDCmd (p : ApiPayload) (s : Sys) : Sys :=
  if s.gainSelector = 0 then
    saveSettings (initPID (1 / 10) 1 (applyKd p (applyTi p (applyKp p s))))
  else s

/-- Embedding of the command dispatch of `handleApiCommand()` (the HTTP
method check, JSON parsing and the response are transport and not
modelled; `scale.tare()` in the tare command is a sensor-driver effect
with no state in this embedding). -/
def handleApiCommand (cmd : String) (p : ApiPayload) (s : Sys) : Sys :=
  if cmd = "start" then startCmd s
  else if cmd = "stop" then stopSystem s
  else if cmd = "tare" then s
  else if cmd = "setAuto" then setAutoCmd p s
  else if cmd = "setAmount" then setAmountCmd p s
  else if cmd = "setServoMin" then setServoMinCmd p s
  else if cmd = "setServoMax" then setServoMaxCmd p s
  else if cmd = "setStopHysteresis" then setStopHysteresisCmd p s
  else if cmd = "setMinGlassWeight" then setMinGlassWeightCmd p s
  else if cmd = "setMaxWeight" then setMaxWeightCmd p s
  else if cmd = "setCalWeight" then setCalWeightCmd p s
  else if cmd = "setViscosity" then setViscosityCmd p s
  else if cmd = "setLanguage" then setLanguageCmd p s
  else if cmd = "setPID" then setPIDCmd p s
  else if cmd = "servoTest" then servoTestCmd p s
  else if cmd = "calibrate" then calibrateCmd s
  else if cmd = "resetStatistics" then resetStatisticsCmd s
  else s

/-- The firmware globals as initialized at program start (C static
initialization, before `setup()` runs): note `double setpoint` is a
zero-initialized global, and `desiredAmount` defaults to
`String(minWeight + maxWeight/2)` = 550. -/
def bootSys : Sys :=
  { actualWeight := 0
    adjustedWeight := 0
    glasWeight := 0
    stateMachine := 4
    calStateMachine := 0
    stopConditionCount := 0
    cnt := 0
    setpoint := 0
    setpointPI := some 0
    input := some 0
    output := 0
    running := false
    kP := [8, 8, 8, 10]
    Ti := [10, 10, 7, 0]
    kD := [5, 5, 2, 1]
    gainSelector := 2
    kpCoeff := 0
    kiCoeff := some 0
    kdCoeff := 0
    outLow := 0
    outHigh := 0
    windLow := 0
    windHigh := 0
    sampleTime := 0
    looptime := 20
    autoState := false
    desiredAmount := 550
    stopHysteresis := 2
    minGlassWeight := 10
    maxWeight := 1000
    servoMin := 0
    servoMax := 90
    lang := 0
    servoTestMode := false
    servoTestOutput := 0
    calWeight := 250
    calSum := 0
    calCount := 0
    calAveraging := false
    reading := 0
    tareInProgress := false
    calFileValue := none
    scaleFactor := 0
    dispensingHistory := List.replicate 10 ⟨0, 0, 0⟩
    historyIndex := 0
    historyCount := 0
    totalDispensingCycles := 0
    cumulativeDispensedGrams := 0
    cumulativeTargetGrams := 0
    cumulativeTotalError := 0
    settingsChanged := false
    saveCount := 0 }

/-- The state `setup()` leaves behind on a first boot with no persisted
settings or calibration: statistics and sampler initialized externally,
then `initPID(0.1, 1)` (which calls `stopSystem()`). -/
def setupSys : Sys := initPID (1 / 10) 1 bootSys

/-- A concrete mid-fill state: target 300 g locked, stop hysteresis 5 g,
empty-glass weight 0, controller running, dosing machine FILLING(3). -/
def fillSys : Sys :=
  { setupSys with stateMachine := 3
                  setpoint := 300
                  desiredAmount := 300
                  stopHysteresis := 5
                  running := true }

/-- Claim C1: in FILLING(3), a tick whose adjusted weight is within the
stop hysteresis of the target increments the confirmation counter and
nothing else; once the condition has held 3 consecutive ticks the
machine stops the controller, zeroes the output, records a
completed-dose statistic and moves to COMPLETE(4); a failing tick resets
the counter to 0.  Concretely with target 300 and hysteresis 5:
adjusted weights 296, 296, 290 leave the machine still filling, while
296, 296, 296 complete the dose. -/
theorem fill_completion_confirmation (s : Sys)
    (h3 : s.stateMachine = 3) (hc : s.stopConditionCount < 255) :
    ((s.setpoint - s.adjustedWeight < s.stopHysteresis →
       (s.stopConditionCount + 1 < 3 →
         dosingStep s = { s with stopConditionCount := s.stopConditionCount + 1 }) ∧
       (3 ≤ s.stopConditionCount + 1 →
         (dosingStep s).stateMachine = 4 ∧
         (dosingStep s).running = false ∧
         (dosingStep s).output = 0 ∧
         (dosingStep s).stopConditionCount = 0 ∧
         (0 < s.setpoint →
           (dosingStep s).totalDispensingCycles = s.totalDispensingCycles + 1))) ∧
     (¬ s.setpoint - s.adjustedWeight < s.stopHysteresis →
       dosingStep s = { s with stopConditionCount := 0 })) ∧
    ((runTicks [dosIn 296, dosIn 296, dosIn 290] fillSys).stateMachine = 3 ∧
     (runTicks [dosIn 296, dosIn 296, dosIn 290] fillSys).running = true ∧
     (runTicks [dosIn 296, dosIn 296, dosIn 290] fillSys).stopConditionCount = 0 ∧
     (runTicks [dosIn 296, dosIn 296, dosIn 290] fillSys).totalDispensingCycles = 0) ∧
    ((runTicks [dosIn 296, dosIn 296, dosIn 296] fillSys).stateMachine = 4 ∧
     (runTicks [dosIn 296, dosIn 296, dosIn 296] fillSys).running = false ∧
     (runTicks [dosIn 296, dosIn 296, dosIn 296] fillSys).output = 0 ∧
     (runTicks [dosIn 296, dosIn 296, dosIn 296] fillSys).totalDispensingCycles = 1) := by
  refine ⟨⟨?_, ?_⟩, by decide, by decide⟩
  · intro hin
    constructor
    · intro hlt
      have hmod : (s.stopConditionCount + 1) % 256 = s.stopConditionCount + 1 := by omega
      simp only [dosingStep, h3, if_pos hin, hmod]
      rw [if_neg (by omega : ¬ 3 ≤ s.stopConditionCount + 1)]
    · intro hge
      have hmod : (s.stopConditionCount + 1) % 256 = s.stopConditionCount + 1 := by omega
      simp only [dosingStep, h3, if_pos hin, hmod]
      rw [if_pos (by omega : 3 ≤ s.stopConditionCount + 1)]
      unfold recordDispensingStats
      by_cases hsp : 0 < s.setpoint
      · rw [if_pos hsp]
        by_cases h20 : (s.totalDispensingCycles + 1) % 20 = 0 <;>
          simp [h20, hsp]
      · rw [if_neg hsp]
        simp [hsp]
  · intro hout
    simp only [dosingStep, h3, if_neg hout]

/-- Witness for C1 at the concrete mid-fill state. -/
theorem fill_completion_confirmation_witness :
    fillSys.stateMachine = 3 ∧ fillSys.stopConditionCount < 255 ∧
    (fillSys.setpoint - fillSys.adjustedWeight < fillSys.stopHysteresis →
      (fillSys.stopConditionCount + 1 < 3 →
        dosingStep fillSys = { fillSys with stopConditionCount := fillSys.stopConditionCount + 1 }) ∧
      (3 ≤ fillSys.stopConditionCount + 1 →
        (dosingStep fillSys).stateMachine = 4 ∧
        (dosingStep fillSys).running = false ∧
        (dosingStep fillSys).output = 0 ∧
        (dosingStep fillSys).stopConditionCount = 0 ∧
        (0 < fillSys.setpoint →
          (dosingStep fillSys).totalDispensingCycles = fillSys.totalDispensingCycles + 1))) :=
  ⟨by decide, by decide,
    ((fill_completion_confirmation fillSys (by decide) (by decide)).1).1⟩

/-- Counterexample to claim C2 as stated: the stop command does NOT
clear the glass-detection debounce counter `cnt`; from DETECT_GLASS with
`cnt = 7` it is still 7 afterwards. -/
theorem stop_command_keeps_glass_debounce :
    (handleApiCommand "stop" noPayload
      { setupSys with stateMachine := 1, cnt := 7 }).cnt = 7 := by decide

/-- Claim C2 (amended): the stop command from any dosing state calls
`stopSystem`, which stops the controller, zeroes the output, moves the
machine to IDLE(4), disables auto mode and clears the fill confirmation
counter; the glass-detection debounce counter `cnt` is left unchanged.
Repeating the command is idempotent. -/
theorem stop_command_amended (s : Sys) (p : ApiPayload)
    (h : s.stateMachine = 1 ∨ s.stateMachine = 2 ∨ s.stateMachine = 3 ∨
         s.stateMachine = 4) :
    handleApiCommand "stop" p s = stopSystem s ∧
    (handleApiCommand "stop" p s).running = false ∧
    (handleApiCommand "stop" p s).output = 0 ∧
    (handleApiCommand "stop" p s).stateMachine = 4 ∧
    (handleApiCommand "stop" p s).autoState = false ∧
    (handleApiCommand "stop" p s).stopConditionCount = 0 ∧
    (handleApiCommand "stop" p s).cnt = s.cnt ∧
    handleApiCommand "stop" p (handleApiCommand "stop" p s) =
      handleApiCommand "stop" p s := by
  refine ⟨rfl, rfl, rfl, rfl, rfl, rfl, rfl, rfl⟩

/-- Witness for C2 (amended) at a concrete filling state. -/
theorem stop_command_amended_witness :
    (fillSys.stateMachine = 1 ∨ fillSys.stateMachine = 2 ∨
     fillSys.stateMachine = 3 ∨ fillSys.stateMachine = 4) ∧
    handleApiCommand "stop" noPayload fillSys = stopSystem fillSys ∧
    (handleApiCommand "stop" noPayload fillSys).output = 0 :=
  ⟨by decide,
    (stop_command_amended fillSys noPayload (by decide)).1,
    (stop_command_amended fillSys noPayload (by decide)).2.2.1⟩

/-- Counterexample to claim C3 as stated: 10 consecutive ticks at or
above the minimum glass weight do NOT confirm the glass; the machine is
still in DETECT_GLASS(1) with the debounce counter at 10 (the source
requires `cnt > 10`). -/
theorem glass_detect_ten_ticks_insufficient :
    (runTicks (List.replicate 10 (dosIn 12))
      { setupSys with stateMachine := 1 }).stateMachine = 1 ∧
    (runTicks (List.replicate 10 (dosIn 12))
      { setupSys with stateMachine := 1 }).cnt = 10 := by decide

/-- Claim C3 (amended): in DETECT_GLASS(1) a tick below the threshold
resets the debounce counter to 0; a tick at or above it increments the
counter, and the glass is confirmed (glass weight recorded, counter
reset, transition to START_FILL(2)) exactly when the incremented counter
exceeds 10, i.e. on the 11th consecutive tick at or above threshold.
Concretely, the spec sequence of 9 good ticks, one dip and 10 fresh good
ticks leaves the machine unconfirmed; an 11th fresh tick confirms it. -/
theorem glass_detect_eleven_ticks (s : Sys)
    (h1 : s.stateMachine = 1) (hcnt : s.cnt < 255) :
    ((s.actualWeight < s.minGlassWeight → dosingStep s = { s with cnt := 0 }) ∧
     (¬ s.actualWeight < s.minGlassWeight →
       (s.cnt + 1 ≤ 10 → dosingStep s = { s with cnt := s.cnt + 1 }) ∧
       (10 < s.cnt + 1 →
         dosingStep s = { s with glasWeight := toUInt16 s.actualWeight,
                                 cnt := 0, stateMachine := 2 }))) ∧
    ((runTicks (List.replicate 9 (dosIn 12) ++ [dosIn 5] ++
        List.replicate 10 (dosIn 12))
        { setupSys with stateMachine := 1 }).stateMachine = 1 ∧
     (runTicks (List.replicate 9 (dosIn 12) ++ [dosIn 5] ++
        List.replicate 10 (dosIn 12))
        { setupSys with stateMachine := 1 }).cnt = 10) ∧
    ((runTicks (List.replicate 11 (dosIn 12))
        { setupSys with stateMachine := 1 }).stateMachine = 2 ∧
     (runTicks (List.replicate 11 (dosIn 12))
        { setupSys with stateMachine := 1 }).glasWeight = 12) := by
  refine ⟨⟨?_, ?_⟩, by decide, by decide⟩
  · intro hlow
    simp only [dosingStep, h1, if_pos hlow]
    rw [if_neg (by omega : ¬ (10:Nat) < 0)]
  · intro hhigh
    have hmod : (s.cnt + 1) % 256 = s.cnt + 1 := by omega
    constructor
    · intro hle
      simp only [dosingStep, h1, if_neg hhigh, hmod]
      rw [if_neg (by omega : ¬ 10 < s.cnt + 1)]
    · intro hgt
      simp only [dosingStep, h1, if_neg hhigh, hmod]
      rw [if_pos hgt]

/-- Witness for C3 (amended) at a concrete detection state. -/
theorem glass_detect_eleven_ticks_witness :
    ({ setupSys with stateMachine := 1 } : Sys).stateMachine = 1 ∧
    (¬ ({ setupSys with stateMachine := 1 } : Sys).actualWeight <
        ({ setupSys with stateMachine := 1 } : Sys).minGlassWeight →
      (({ setupSys with stateMachine := 1 } : Sys).cnt + 1 ≤ 10 →
        dosingStep { setupSys with stateMachine := 1 } =
          { ({ setupSys with stateMachine := 1 } : Sys) with
              cnt := ({ setupSys with stateMachine := 1 } : Sys).cnt + 1 }) ∧
      (10 < ({ setupSys with stateMachine := 1 } : Sys).cnt + 1 →
        dosingStep { setupSys with stateMachine := 1 } =
          { ({ setupSys with stateMachine := 1 } : Sys) with
              glasWeight := toUInt16 ({ setupSys with stateMachine := 1 } : Sys).actualWeight,
              cnt := 0, stateMachine := 2 })) :=
  ⟨by decide,
    ((glass_detect_eleven_ticks { setupSys with stateMachine := 1 }
      (by decide) (by decide)).1).2⟩

/-- Claim C5 (evidence of the divergence): selecting the High-viscosity
factory preset sets Ti[3] = 0, and `initPID` then reaches the integral
coefficient computation `0.01/Ti[gainSelector]` with divisor 0 — the
source has no Ti==0 special case, so the C double division 0.01/0.0 is
performed (the rational embedding records the valueless division as
`none` instead of a pure P+D configuration). -/
theorem initPID_ti_zero_division :
    (handleApiCommand "setViscosity" { noPayload with value := 3 } setupSys).gainSelector
      = 3 ∧
    (handleApiCommand "setViscosity" { noPayload with value := 3 } setupSys).Ti.getD 3 0
      = 0 ∧
    (handleApiCommand "setViscosity" { noPayload with value := 3 } setupSys).kiCoeff
      = none := by decide

/-- Claim C10: a calibrate command received while the calibration
machine is TARING(2) or SAMPLING(4) changes nothing at all: the whole
state, in particular calStateMachine, calSum, calCount and calAveraging,
is returned unchanged. -/
theorem calibrate_command_frame (s : Sys) (p : ApiPayload)
    (h : s.calStateMachine = 2 ∨ s.calStateMachine = 4) :
    handleApiCommand "calibrate" p s = s := by
  have hred : handleApiCommand "calibrate" p s =
      (if s.calStateMachine = 0 then { s with calStateMachine := 2 }
       else if s.calStateMachine = 1 then { s with calStateMachine := 2 }
       else if s.calStateMachine = 3 then { s with calStateMachine := 4 }
       else s) := rfl
  rcases h with h | h <;>
    rw [hred, if_neg (by omega), if_neg (by omega), if_neg (by omega)]

/-- Witness for C10 at a concrete TARING state. -/
theorem calibrate_command_frame_witness :
    (({ setupSys with calStateMachine := 2 } : Sys).calStateMachine = 2 ∨
     ({ setupSys with calStateMachine := 2 } : Sys).calStateMachine = 4) ∧
    handleApiCommand "calibrate" noPayload { setupSys with calStateMachine := 2 } =
      { setupSys with calStateMachine := 2 } :=
  ⟨Or.inl (by decide),
    calibrate_command_frame { setupSys with calStateMachine := 2 } noPayload
      (Or.inl (by decide))⟩

lemma recordDispensingStats_autoState (s : Sys) :
    (recordDispensingStats s).autoState = s.autoState := by
  simp only [recordDispensingStats]
  split_ifs <;> rfl

/-- Claim C9: `stopSystem` — reached from the stop command and from
`initPID`, hence from the settings-saving setViscosity and setPID
commands — disables auto mode and forces the dosing machine to state 4
(with the controller stopped and the output zeroed), so changing the
viscosity preset or the PID gains mid-fill aborts the fill and cancels
automatic restart; normal fill completion in FILLING(3) leaves autoState
unchanged. -/
theorem stop_paths_cancel_auto (s : Sys) (p : ApiPayload) :
    (stopSystem s).autoState = false ∧
    (stopSystem s).stateMachine = 4 ∧
    (initPID (1 / 10) 1 s).autoState = false ∧
    (initPID (1 / 10) 1 s).stateMachine = 4 ∧
    (handleApiCommand "setViscosity" p s).autoState = false ∧
    (handleApiCommand "setViscosity" p s).stateMachine = 4 ∧
    (handleApiCommand "setViscosity" p s).output = 0 ∧
    (handleApiCommand "setViscosity" p s).running = false ∧
    (s.gainSelector = 0 →
      (handleApiCommand "setPID" p s).autoState = false ∧
      (handleApiCommand "setPID" p s).stateMachine = 4 ∧
      (handleApiCommand "setPID" p s).output = 0) ∧
    (s.stateMachine = 3 → (dosingStep s).autoState = s.autoState) := by
  refine ⟨rfl, rfl, rfl, rfl, rfl, rfl, rfl, rfl, ?_, ?_⟩
  · intro h0
    have hred : handleApiCommand "setPID" p s = setPIDCmd p s := rfl
    refine ⟨?_, ?_, ?_⟩ <;> (rw [hred]; unfold setPIDCmd; rw [if_pos h0]; rfl)
  · intro h3
    simp only [dosingStep, h3]
    split_ifs <;> simp [recordDispensingStats_autoState]

/-- Witness for C9 at a concrete user-defined-gains filling state. -/
theorem stop_paths_cancel_auto_witness :
    ({ fillSys with gainSelector := 0 } : Sys).gainSelector = 0 ∧
    ({ fillSys with gainSelector := 0 } : Sys).stateMachine = 3 ∧
    (handleApiCommand "setPID" noPayload { fillSys with gainSelector := 0 }).autoState
      = false ∧
    (dosingStep { fillSys with gainSelector := 0 }).autoState =
      ({ fillSys with gainSelector := 0 } : Sys).autoState :=
  ⟨by decide, by decide,
    ((stop_paths_cancel_auto { fillSys with gainSelector := 0 } noPayload).2.2.2.2.2.2.2.2.1
      (by decide)).1,
    (stop_paths_cancel_auto { fillSys with gainSelector := 0 } noPayload).2.2.2.2.2.2.2.2.2
      (by decide)⟩

/-- Counterexample to claim C7 as stated: before the first START_FILL
tick the global `setpoint` still has its zero initial value, so the
per-tick division `input = adjustedWeight/setpoint` has divisor 0 (the
embedding records the valueless division as `none`) — both in IDLE and
in DETECT_GLASS. -/
theorem input_division_by_zero_before_first_fill :
    setupSys.setpoint = 0 ∧
    (controlTick 0 false 0 0 setupSys).input = none ∧
    (controlTick 12 false 0 0 { setupSys with stateMachine := 1 }).input = none := by
  decide

lemma calStep_setpoint (te : Bool) (r : Int) (s : Sys) :
    (calStep te r s).setpoint = s.setpoint := by
  simp only [calStep]
  split <;> first | rfl | (split_ifs <;> rfl)

lemma calStep_desiredAmount (te : Bool) (r : Int) (s : Sys) :
    (calStep te r s).desiredAmount = s.desiredAmount := by
  simp only [calStep]
  split <;> first | rfl | (split_ifs <;> rfl)

lemma recordDispensingStats_setpoint (s : Sys) :
    (recordDispensingStats s).setpoint = s.setpoint := by
  simp only [recordDispensingStats]
  split_ifs <;> rfl

lemma dosingStep_setpoint (s : Sys) :
    (dosingStep s).setpoint = s.setpoint ∨
    (dosingStep s).setpoint = s.desiredAmount := by
  simp only [dosingStep]
  split <;>
    first
      | (right; rfl)
      | (left; rfl)
      | (split_ifs <;>
          first
            | (left; rfl)
            | (left; exact recordDispensingStats_setpoint s)
            | (right; rfl))

/-- The state after the weight-refresh and calibration phases of a tick. -/
def preDosing (w : Int) (te : Bool) (cr : Int) (s : Sys) : Sys :=
  calStep te cr
    { s with actualWeight := w, adjustedWeight := adjustWeight w s.glasWeight }

lemma controlTick_setpoint (w : Int) (te : Bool) (cr : Int) (po : ℚ) (s : Sys) :
    (controlTick w te cr po s).setpoint = (dosingStep (preDosing w te cr s)).setpoint := by
  simp only [controlTick, preDosing]
  split_ifs <;> rfl

lemma controlTick_input (w : Int) (te : Bool) (cr : Int) (po : ℚ) (s : Sys) :
    (controlTick w te cr po s).input =
      (if ((dosingStep (preDosing w te cr s)).setpoint : ℚ) = 0 then none
       else some (((dosingStep (preDosing w te cr s)).adjustedWeight : ℚ) /
            ((dosingStep (preDosing w te cr s)).setpoint : ℚ))) := by
  simp only [controlTick, preDosing]
  split_ifs <;> rfl

lemma startCmd_setpoint (s : Sys) : (startCmd s).setpoint = s.setpoint := by
  unfold startCmd
  split_ifs <;> rfl

lemma calibrateCmd_setpoint (s : Sys) : (calibrateCmd s).setpoint = s.setpoint := by
  unfold calibrateCmd
  split_ifs <;> rfl

lemma applyPresetReset_setpoint (s : Sys) :
    (applyPresetReset s).setpoint = s.setpoint := by
  unfold applyPresetReset
  split_ifs <;> rfl

lemma setViscosityCmd_setpoint (p : ApiPayload) (s : Sys) :
    (setViscosityCmd p s).setpoint = s.setpoint := by
  unfold setViscosityCmd
  exact applyPresetReset_setpoint _

lemma applyKp_setpoint (p : ApiPayload) (s : Sys) :
    (applyKp p s).setpoint = s.setpoint := by
  unfold applyKp
  cases p.kp <;> rfl

lemma applyTi_setpoint (p : ApiPayload) (s : Sys) :
    (applyTi p s).setpoint = s.setpoint := by
  unfold applyTi
  cases p.ti <;> rfl

lemma applyKd_setpoint (p : ApiPayload) (s : Sys) :
    (applyKd p s).setpoint = s.setpoint := by
  unfold applyKd
  cases p.kd <;> rfl

lemma setPIDCmd_setpoint (p : ApiPayload) (s : Sys) :
    (setPIDCmd p s).setpoint = s.setpoint := by
  unfold setPIDCmd
  split_ifs with h0
  · show (applyKd p (applyTi p (applyKp p s))).setpoint = s.setpoint
    rw [applyKd_setpoint, applyTi_setpoint, applyKp_setpoint]
  · rfl

lemma servoTestCmd_setpoint (p : ApiPayload) (s : Sys) :
    (servoTestCmd p s).setpoint = s.setpoint := by
  simp only [servoTestCmd]
  split_ifs <;> rfl

lemma handleApiCommand_setpoint (cmd : String) (p : ApiPayload) (s : Sys) :
    (handleApiCommand cmd p s).setpoint = s.setpoint := by
  unfold handleApiCommand
  by_cases h1 : cmd = "start"
  · rw [if_pos h1]; exact startCmd_setpoint s
  rw [if_neg h1]
  by_cases h2 : cmd = "stop"
  · rw [if_pos h2]; rfl
  rw [if_neg h2]
  by_cases h3 : cmd = "tare"
  · rw [if_pos h3]
  rw [if_neg h3]
  by_cases h4 : cmd = "setAuto"
  · rw [if_pos h4]; rfl
  rw [if_neg h4]
  by_cases h5 : cmd = "setAmount"
  · rw [if_pos h5]; rfl
  rw [if_neg h5]
  by_cases h6 : cmd = "setServoMin"
  · rw [if_pos h6]; rfl
  rw [if_neg h6]
  by_cases h7 : cmd = "setServoMax"
  · rw [if_pos h7]; rfl
  rw [if_neg h7]
  by_cases h8 : cmd = "setStopHysteresis"
  · rw [if_pos h8]; rfl
  rw [if_neg h8]
  by_cases h9 : cmd = "setMinGlassWeight"
  · rw [if_pos h9]; rfl
  rw [if_neg h9]
  by_cases h10 : cmd = "setMaxWeight"
  · rw [if_pos h10]; rfl
  rw [if_neg h10]
  by_cases h11 : cmd = "setCalWeight"
  · rw [if_pos h11]; rfl
  rw [if_neg h11]
  by_cases h12 : cmd = "setViscosity"
  · rw [if_pos h12]; exact setViscosityCmd_setpoint p s
  rw [if_neg h12]
  by_cases h13 : cmd = "setLanguage"
  · rw [if_pos h13]; rfl
  rw [if_neg h13]
  by_cases h14 : cmd = "setPID"
  · rw [if_pos h14]; exact setPIDCmd_setpoint p s
  rw [if_neg h14]
  by_cases h15 : cmd = "servoTest"
  · rw [if_pos h15]; exact servoTestCmd_setpoint p s
  rw [if_neg h15]
  by_cases h16 : cmd = "calibrate"
  · rw [if_pos h16]; exact calibrateCmd_setpoint s
  rw [if_neg h16]
  by_cases h17 : cmd = "resetStatistics"
  · rw [if_pos h17]; rfl
  rw [if_neg h17]

/-- Claim C7 (amended): the divisor of the per-tick PID input computation
is positive — and the division defined — on every tick from a state
whose setpoint is already positive (i.e. once a START_FILL has locked a
positive target, positivity being supplied by the settings layer through
desiredAmount); no API command ever writes setpoint, and the
START_FILL(2) tick locks it to desiredAmount.  Before the first
START_FILL the divisor is 0 and the division undefined. -/
theorem setpoint_positive_preserved (s : Sys) (w : Int) (te : Bool) (cr : Int)
    (po : ℚ) (cmd : String) (p : ApiPayload)
    (hsp : 0 < s.setpoint) (hda : 0 < s.desiredAmount) :
    0 < (controlTick w te cr po s).setpoint ∧
    (controlTick w te cr po s).input ≠ none ∧
    (handleApiCommand cmd p s).setpoint = s.setpoint ∧
    (s.stateMachine = 2 → (dosingStep s).setpoint = s.desiredAmount) := by
  have hpos : 0 < (controlTick w te cr po s).setpoint := by
    rw [controlTick_setpoint]
    rcases dosingStep_setpoint (preDosing w te cr s) with h | h <;>
      rw [h] <;> unfold preDosing <;>
      first
        | (rw [calStep_setpoint]; exact hsp)
        | (rw [calStep_desiredAmount]; exact hda)
  refine ⟨hpos, ?_, handleApiCommand_setpoint cmd p s, ?_⟩
  · rw [controlTick_input]
    rw [if_neg ?hne]
    · exact Option.some_ne_none _
    case hne =>
      rw [controlTick_setpoint] at hpos
      exact Int.cast_ne_zero.mpr (by omega)
  · intro h2
    simp only [dosingStep, h2]

/-- A calibration-only tick input: raw sample `r` for the sampling
state, stable weight 0, no tare event, PID output 0. -/
def calIn (r : Int) : TickInput := ⟨0, false, r, 0⟩

/-- Run the calibration switch alone over a list of raw samples, one
sample per control tick. -/
def calRun (l : List Int) (s : Sys) : Sys :=
  l.foldl (fun s r => calStep false r s) s

lemma calRun_accumulate (l : List Int) : ∀ (s : Sys),
    s.calStateMachine = 4 → s.calAveraging = true →
    s.calCount + (l.length : Int) ≤ 99 →
    calRun l s = { s with calSum := s.calSum + l.sum,
                          calCount := s.calCount + (l.length : Int) } := by
  induction l with
  | nil =>
    intro s _ _ _
    simp [calRun]
  | cons r t ih =>
    intro s h4 hav hb
    simp only [List.length_cons] at hb
    push_cast at hb
    have hstep : calStep false r s =
        { s with calSum := s.calSum + r, calCount := s.calCount + 1 } := by
      simp only [calStep, h4]
      rw [if_neg (show ¬ (s.calAveraging = false) from by rw [hav]; simp),
          if_neg (show ¬ ((100:Int) ≤ s.calCount + 1) from by omega)]
    have hrun : calRun (r :: t) s = calRun t (calStep false r s) := by
      simp [calRun]
    rw [hrun, hstep,
      ih { s with calSum := s.calSum + r, calCount := s.calCount + 1 } h4 hav
        (by show s.calCount + 1 + (t.length : Int) ≤ 99; omega)]
    have e1 : s.calSum + (r :: t).sum = s.calSum + r + t.sum := by
      rw [List.sum_cons]; ring
    have e2 : s.calCount + ((r :: t).length : Int) = s.calCount + 1 + (t.length : Int) := by
      rw [List.length_cons]; push_cast; ring
    rw [e1, e2]

/-- Counterexample to claim C6 as stated: both divisions of the
calibration finalization are C long integer divisions, so with 100 raw
samples of 501 and reference weight 250 the derived and persisted factor
is 2, while raw0/R = 501/250 differs from it by 1/250 — integer
truncation, four orders of magnitude beyond double-precision rounding at
this scale. -/
theorem cal_factor_integer_truncation :
    (runTicks (List.replicate 100 (calIn 501))
      { setupSys with calStateMachine := 4 }).calFileValue = some 2 ∧
    (runTicks (List.replicate 100 (calIn 501))
      { setupSys with calStateMachine := 4 }).scaleFactor = 2 ∧
    (runTicks (List.replicate 100 (calIn 501))
      { setupSys with calStateMachine := 4 }).calStateMachine = 0 ∧
    (501 : ℚ) / 250 - 2 = 1 / 250 ∧ ¬ ((1 : ℚ) / 250 = 0) := by
  refine ⟨by decide, by decide, by decide, by norm_num, by norm_num⟩

lemma calStep_trigger (r : Int) (s : Sys)
    (h4 : s.calStateMachine = 4) (hav : s.calAveraging = true)
    (hc : s.calCount = 99) :
    calStep false r s =
      { s with calSum := s.calSum + r
               calCount := s.calCount + 1
               reading := Int.tdiv (s.calSum + r) 100
               calFileValue := some (Int.tdiv (Int.tdiv (s.calSum + r) 100) s.calWeight)
               scaleFactor := ((Int.tdiv (Int.tdiv (s.calSum + r) 100) s.calWeight : Int) : ℚ)
               calAveraging := false
               calStateMachine := 0 } := by
  simp only [calStep, h4]
  rw [if_neg (show ¬ (s.calAveraging = false) from by rw [hav]; simp),
      if_pos (show (100:Int) ≤ s.calCount + 1 from by omega)]

/-- Claim C6 (amended): entering SAMPLING(4) with the averaging flag
clear, exactly 100 raw samples are accumulated (one per tick), the raw
average is the C long division sum/100, the calibration factor is the C
long division rawAverage/referenceWeight (persisted to /cal.txt and
applied to the live scale driver), and the machine returns to
NEEDS_CALIBRATION(0); the factor equals raw0/R exactly only when R
divides the converged raw average raw0 (otherwise it is truncated, not a
floating-point-accurate quotient). -/
theorem calibration_sampling_amended (s : Sys) (l : List Int)
    (h4 : s.calStateMachine = 4) (hav : s.calAveraging = false)
    (hlen : l.length = 100) :
    (calRun l s).calStateMachine = 0 ∧
    (calRun l s).calAveraging = false ∧
    (calRun l s).calCount = 100 ∧
    (calRun l s).reading = Int.tdiv l.sum 100 ∧
    (calRun l s).calFileValue = some (Int.tdiv (Int.tdiv l.sum 100) s.calWeight) ∧
    (calRun l s).scaleFactor = ((Int.tdiv (Int.tdiv l.sum 100) s.calWeight : Int) : ℚ) ∧
    (calRun l s).calWeight = s.calWeight ∧
    (∀ raw0 : Int, l = List.replicate 100 raw0 → s.calWeight ∣ raw0 →
      Int.tdiv (Int.tdiv l.sum 100) s.calWeight * s.calWeight = raw0) := by
  have hdvd : ∀ raw0 : Int, l = List.replicate 100 raw0 → s.calWeight ∣ raw0 →
      Int.tdiv (Int.tdiv l.sum 100) s.calWeight * s.calWeight = raw0 := by
    intro raw0 hrep hdv
    subst hrep
    have hsum : (List.replicate 100 raw0).sum = (100:Int) * raw0 := by
      rw [List.sum_replicate, nsmul_eq_mul]
      norm_num
    rw [hsum, Int.mul_tdiv_cancel_left raw0 (by norm_num), Int.tdiv_mul_cancel hdv]
  rcases l with _ | ⟨a, t⟩
  · simp at hlen
  · have htne : t ≠ [] := by
      intro hc
      rw [hc] at hlen
      simp at hlen
    obtain ⟨m, b, rfl⟩ : ∃ m bb, t = m ++ [bb] :=
      ⟨t.dropLast, t.getLast htne, (List.dropLast_append_getLast htne).symm⟩
    have hmlen : m.length = 98 := by
      simp at hlen
      omega
    have hstep1 : calStep false a s =
        { s with calSum := a, calCount := 1, calAveraging := true } := by
      simp only [calStep, h4]
      rw [if_pos hav]
      simp
    have hrun1 : calRun (a :: (m ++ [b])) s = calRun (m ++ [b]) (calStep false a s) := by
      simp [calRun]
    have hacc : calRun m { s with calSum := a, calCount := 1, calAveraging := true } =
        { s with calSum := a + m.sum, calCount := 99, calAveraging := true } := by
      rw [calRun_accumulate m
        { s with calSum := a, calCount := 1, calAveraging := true } h4 rfl
        (by show (1:Int) + (m.length : Int) ≤ 99
            rw [hmlen]; norm_num)]
      rw [hmlen]
      rfl
    have happ : calRun (m ++ [b]) { s with calSum := a, calCount := 1, calAveraging := true } =
        calStep false b (calRun m { s with calSum := a, calCount := 1, calAveraging := true }) := by
      simp [calRun, List.foldl_append]
    have htrigger := calStep_trigger b
      { s with calSum := a + m.sum, calCount := 99, calAveraging := true } h4 rfl rfl
    have hfinal : calRun (a :: (m ++ [b])) s =
        { s with calSum := a + m.sum + b
                 calCount := 100
                 reading := Int.tdiv (a + m.sum + b) 100
                 calFileValue := some (Int.tdiv (Int.tdiv (a + m.sum + b) 100) s.calWeight)
                 scaleFactor := ((Int.tdiv (Int.tdiv (a + m.sum + b) 100) s.calWeight : Int) : ℚ)
                 calAveraging := false
                 calStateMachine := 0 } := by
      rw [hrun1, hstep1, happ, hacc, htrigger]
      rfl
    have hsum : (a :: (m ++ [b])).sum = a + m.sum + b := by
      simp [List.sum_append]
      ring
    rw [hsum] at hdvd
    rw [hfinal, hsum]
    exact ⟨rfl, rfl, rfl, rfl, rfl, rfl, rfl, hdvd⟩

/-- Witness for C6 (amended) with 100 constant raw samples of 500 and
the default reference weight 250 (which divides 500). -/
theorem calibration_sampling_amended_witness :
    ({ setupSys with calStateMachine := 4 } : Sys).calStateMachine = 4 ∧
    (calRun (List.replicate 100 (500 : Int))
      { setupSys with calStateMachine := 4 }).calFileValue =
      some (Int.tdiv (Int.tdiv (List.replicate 100 (500 : Int)).sum 100)
        ({ setupSys with calStateMachine := 4 } : Sys).calWeight) ∧
    Int.tdiv (Int.tdiv (List.replicate 100 (500 : Int)).sum 100)
        ({ setupSys with calStateMachine := 4 } : Sys).calWeight *
        ({ setupSys with calStateMachine := 4 } : Sys).calWeight = 500 :=
  ⟨by decide,
    (calibration_sampling_amended { setupSys with calStateMachine := 4 }
      (List.replicate 100 (500 : Int)) (by decide) (by decide) (by decide)).2.2.2.2.1,
    (calibration_sampling_amended { setupSys with calStateMachine := 4 }
      (List.replicate 100 (500 : Int)) (by decide) (by decide) (by decide)).2.2.2.2.2.2.2
      500 rfl (by decide)⟩

/-- Witness for C7 (amended) at the concrete mid-fill state. -/
theorem setpoint_positive_preserved_witness :
    0 < fillSys.setpoint ∧ 0 < fillSys.desiredAmount ∧
    0 < (controlTick 100 false 0 0 fillSys).setpoint ∧
    (controlTick 100 false 0 0 fillSys).input ≠ none :=
  ⟨by decide, by decide,
    (setpoint_positive_preserved fillSys 100 false 0 0 "tare" noPayload
      (by decide) (by decide)).1,
    (setpoint_positive_preserved fillSys 100 false 0 0 "tare" noPayload
      (by decide) (by decide)).2.1⟩

end BeeSMART
